import Mathlib

/-!
Shallow embedding of the `sirdeggen/register` repository core:
the certificate issuer route (`src/back/src/routes/signCertificate.ts`)
and the DID registry (`BsvOverlayRegistry`: createDID / resolveDID /
updateDID).  External collaborators (wallet HMAC, SHA-256, PushDrop
locking, network fetch, JSON serialization of objects) are modelled as
abstract function parameters; everything the route / registry code does
with their results is embedded step for step.
-/

namespace Register

/-! ## Byte-string utilities (`Utils.toArray(_, 'base64')`, `Utils.toBase64`, `Utils.toHex`) -/

def base64Chars : List Char :=
  "ABCDEFGHIJKLMNOPQRSTUVWXYZabcdefghijklmnopqrstuvwxyz0123456789+/".toList

def b64Index (c : Char) : Option Nat :=
  base64Chars.indexOf? c

/-- Base64 decoding: accumulate six bits per alphabet character, emit a byte
whenever eight or more bits are available; non-alphabet characters
(including padding) are skipped. -/
def b64DecodeAux : List Char → Nat → Nat → List Nat
  | [], _, _ => []
  | c :: rest, acc, nbits =>
    match b64Index c with
    | none => b64DecodeAux rest acc nbits
    | some v =>
      let acc2 := acc * 64 + v
      let nbits2 := nbits + 6
      if 8 ≤ nbits2 then
        let extra := nbits2 - 8
        (acc2 / 2 ^ extra) :: b64DecodeAux rest (acc2 % 2 ^ extra) extra
      else
        b64DecodeAux rest acc2 nbits2

/-- `Utils.toArray(s, 'base64')`. -/
def base64Decode (s : String) : List Nat :=
  b64DecodeAux s.toList 0 0

def b64Char (n : Nat) : Char :=
  base64Chars.getD n 'A'

/-- `Utils.toBase64`: standard base64 encoding of a byte list, with padding. -/
def base64Encode : List Nat → List Char
  | b1 :: b2 :: b3 :: rest =>
    let n := b1 % 256 * 65536 + b2 % 256 * 256 + b3 % 256
    b64Char (n / 2 ^ 18 % 64) :: b64Char (n / 2 ^ 12 % 64) ::
      b64Char (n / 2 ^ 6 % 64) :: b64Char (n % 64) :: base64Encode rest
  | [b1, b2] =>
    let n := b1 % 256 * 1024 + b2 % 256 * 4
    [b64Char (n / 2 ^ 12 % 64), b64Char (n / 2 ^ 6 % 64), b64Char (n % 64), '=']
  | [b1] =>
    [b64Char (b1 % 256 / 4), b64Char (b1 % 256 % 4 * 16), '=', '=']
  | [] => []

def toBase64 (bs : List Nat) : String :=
  String.mk (base64Encode bs)

def exceptIsOk {ε α : Type} : Except ε α → Bool
  | Except.ok _ => true
  | Except.error _ => false

def hexChars : List Char := "0123456789abcdef".toList

def byteToHexChars (b : Nat) : List Char :=
  [hexChars.getD (b / 16 % 16) '0', hexChars.getD (b % 16) '0']

/-- `Utils.toHex`: lowercase hex encoding, two digits per byte. -/
def toHex (bs : List Nat) : String :=
  String.mk (bs.map byteToHexChars).flatten

/-! ## Certificate issuer (`signCertificate.ts`) -/

namespace Issuer

/-- JavaScript truthiness of an optional string value
(`undefined`, `null` and `""` are falsy). -/
def strTruthy : Option String → Bool
  | none => false
  | some s => s != ""

/-- The request body of the `/signCertificate` route.  `none` models a field
absent from the JSON body. -/
structure SignRequestBody where
  clientNonce : Option String
  type : Option String
  fields : Option (List (String × String))
  masterKeyring : Option (List (String × String))
  deriving DecidableEq

/-- The certificate object built by the route
(`new Certificate(type, serialNumber, subject, certifier,
revocationOutpoint, fields)` plus the signature added by `sign`). -/
structure Certificate where
  type : String
  serialNumber : String
  subject : String
  certifier : String
  revocationOutpoint : String
  fields : List (String × String)
  signature : String
  deriving DecidableEq

/-- A JSON response body: either the success shape
`certificate / serverNonce` or the error shape
`status:'error' (code?) description`. -/
inductive RespBody where
  | success (certificate : Certificate) (serverNonce : String)
  | error (code : Option String) (description : String)
  deriving DecidableEq

structure Response where
  status : Nat
  body : RespBody
  deriving DecidableEq

/-- The wallet and SDK collaborators used by the route, abstracted as
functions.  `verifyNonceOk` models `verifyNonce` (rejection = failure),
`serverNonceFor` models `createNonce`, `hmac` models `wallet.createHmac`
(arguments: data bytes, protocol ID, key ID, counterparty),
`decryptFields` models `MasterCertificate.decryptFields`, `identityPublicKey`
models `wallet.getPublicKey({identityKey:true})` and `signCert` models
`certificate.sign(wallet)` returning the signature. -/
structure WalletModel where
  verifyNonceOk : String → String → Bool
  serverNonceFor : String → String
  hmac : List Nat → Nat × String → String → String → List Nat
  decryptFields : List (String × String) → List (String × String) → String →
    Except String (List (String × String))
  identityPublicKey : String
  signCert : Certificate → Except String String

/-- `certifierSignCheckArgs`: check the four required body members in order,
throwing the matching message for the first falsy one. -/
def certifierSignCheckArgs (args : SignRequestBody) : Except String Unit :=
  if !strTruthy args.clientNonce then
    Except.error "Missing client nonce!"
  else if !strTruthy args.type then
    Except.error "Missing certificate type!"
  else if args.fields.isNone then
    Except.error "Missing certificate fields to sign!"
  else if args.masterKeyring.isNone then
    Except.error "Missing masterKeyring to decrypt fields!"
  else
    Except.ok ()

/-- `${revocationTxid}.0` with `revocationTxid` a string of 64 zeros. -/
def revocationOutpointSentinel : String :=
  String.mk (List.replicate 64 '0') ++ ".0"

def genericInternalError : Response :=
  ⟨500, RespBody.error (some "ERR_INTERNAL") "An internal error has occurred."⟩

/-- The serial-number computation of the route:
`Utils.toBase64` of `wallet.createHmac` over
`Utils.toArray(clientNonce + serverNonce, 'base64')`, protocol
`[2, 'certificate issuance']`, key ID `serverNonce + clientNonce`,
counterparty the requester's identity key. -/
def computeSerialNumber (w : WalletModel)
    (clientNonce serverNonce identityKey : String) : String :=
  toBase64 (w.hmac (base64Decode (clientNonce ++ serverNonce))
    (2, "certificate issuance") (serverNonce ++ clientNonce) identityKey)

/-- The body of the route after successful argument validation: nonce
verification, server nonce creation, serial-number derivation, field
decryption, certificate construction and signing. -/
def signCertificatePipeline (w : WalletModel) (identityKey : String)
    (clientNonce type : String)
    (fields masterKeyring : List (String × String)) : Except String Response :=
  if !w.verifyNonceOk clientNonce identityKey then
    Except.error "nonce verification failed"
  else
    let serverNonce := w.serverNonceFor identityKey
    let serialNumber := computeSerialNumber w clientNonce serverNonce identityKey
    match w.decryptFields masterKeyring fields identityKey with
    | Except.error e => Except.error e
    | Except.ok _decryptedFields =>
      let cert0 : Certificate :=
        { type := type
          serialNumber := serialNumber
          subject := identityKey
          certifier := w.identityPublicKey
          revocationOutpoint := revocationOutpointSentinel
          fields := fields
          signature := "" }
      match w.signCert cert0 with
      | Except.error e => Except.error e
      | Except.ok signature =>
        Except.ok ⟨200, RespBody.success { cert0 with signature := signature } serverNonce⟩

/-- The `/signCertificate` route handler: validate arguments (failure is a
400 with the validation message), then run the pipeline; any thrown error
after validation becomes the generic 500 response. -/
def signCertificate (w : WalletModel) (identityKey : String)
    (body : SignRequestBody) : Response :=
  match certifierSignCheckArgs body with
  | Except.error msg => ⟨400, RespBody.error none msg⟩
  | Except.ok _ =>
    match body.clientNonce, body.type, body.fields, body.masterKeyring with
    | some clientNonce, some type, some fields, some masterKeyring =>
      match signCertificatePipeline w identityKey clientNonce type fields masterKeyring with
      | Except.ok resp => resp
      | Except.error _ => genericInternalError
    | _, _, _, _ => genericInternalError

end Issuer

/-! ## DID registry (`BsvOverlayRegistry`) -/

namespace Registry

/-- JavaScript `String.prototype.split(':')`, on the character list. -/
def splitColonAux : List Char → List (List Char)
  | [] => [[]]
  | c :: rest =>
    if c = ':' then [] :: splitColonAux rest
    else
      match splitColonAux rest with
      | [] => [[c]]
      | h :: t => (c :: h) :: t

/-- `did.split(':')`. -/
def jsSplitColon (s : String) : List String :=
  (splitColonAux s.data).map String.mk

structure VerificationMethod where
  id : String
  type : String
  controller : String
  publicKeyJwk : String
  deriving DecidableEq

/-- The DID document shape manipulated by the registry: the `@context`
list (optional on input), the verification-method list and the key-usage
role lists. -/
structure DIDDocument where
  id : String
  context : Option (List String)
  verificationMethod : List VerificationMethod
  authentication : List String
  assertionMethod : List String
  keyAgreement : List String
  capabilityDelegation : List String
  capabilityInvocation : List String
  deriving DecidableEq

def secp256k1Type : String := "EcdsaSecp256k1VerificationKey2019"

def defaultContext : List String := ["https://www.w3.org/ns/did/v1"]

structure ActionInput where
  outpoint : String
  inputDescription : String
  deriving DecidableEq

structure ActionOutput where
  satoshis : Nat
  lockingScript : String
  outputDescription : String
  basket : Option String
  customInstructions : Option String
  deriving DecidableEq

/-- The BRC-100 `createAction` request assembled by the registry. -/
structure CreateActionArgs where
  description : String
  inputs : List ActionInput
  outputs : List ActionOutput
  labels : List String
  deriving DecidableEq

structure CreateActionResult where
  txid : String
  deriving DecidableEq

/-- A record of the `did_lookups` MongoDB collection. -/
structure LookupRecord where
  serialNumber : String
  txid : String
  vout : Nat
  topic : String
  didDocument : Option DIDDocument
  createdAt : Nat
  deriving DecidableEq

/-- The optional MongoDB collaborator: its current contents plus a flag for
whether `insertOne` rejects. -/
structure DbModel where
  state : List LookupRecord
  insertFails : Bool
  deriving DecidableEq

inductive FieldValue where
  | str (s : String)
  | doc (d : DIDDocument)
  deriving DecidableEq

structure OverlayOutput where
  fields : List FieldValue
  deriving DecidableEq

/-- The decoded JSON body of an overlay lookup response. -/
structure OverlayData where
  type : String
  outputs : List OverlayOutput
  deriving DecidableEq

/-- A `fetch` response: HTTP success flag and status, and the result of
`response.json()` (an error models a body that fails JSON decoding). -/
structure FetchResponse where
  ok : Bool
  status : Nat
  json : Except String OverlayData

/-- The POST body and URL of the overlay lookup request. -/
structure LookupQuestion where
  url : String
  service : String
  serialNumber : String
  outpoint : String

/-- The registry's configuration and external collaborators, abstracted as
functions: `sha256` is `Hash.sha256` over a string, `stringifyUnique` is
`JSON.stringify({...didDocument, timestamp, nonce})`, `stringifyDoc` is
`JSON.stringify(didDocument)`, `pushDropLock` is `PushDrop.lock` (fields,
protocol ID, key ID, counterparty, forSelf, includeSignature, position),
`stringifyCreateCI` / `stringifyUpdateCI` serialize the
`customInstructions` payloads, `createAction` is the wallet client,
`fetch` is the overlay lookup call, `parseDocJson` is `JSON.parse` of a
response field and `opReturnScript` is `buildOpReturnScript`. -/
structure RegistryEnv where
  topic : String
  overlayProvider : String
  sha256 : String → List Nat
  stringifyUnique : DIDDocument → Nat → String → String
  stringifyDoc : DIDDocument → String
  pushDropLock : List (List Nat) → Nat × String → String → String → Bool → Bool → String → String
  stringifyCreateCI : Nat × String → String → String → List (List Nat) → DIDDocument → String
  stringifyUpdateCI : String
  createAction : CreateActionArgs → Except String CreateActionResult
  fetch : LookupQuestion → FetchResponse
  parseDocJson : String → Option DIDDocument
  opReturnScript : List String → String

structure CreateOptions where
  didDocument : DIDDocument
  publicKeyJWK : Option String
  keyId : Option String

structure CreateDIDResult where
  did : String
  car : CreateActionResult
  didDocument : DIDDocument
  deriving DecidableEq

/-- The uniqueness digest of `createDID`:
`Hash.sha256(JSON.stringify({...didDocument, timestamp, nonce}))`. -/
def serialNumberBytesFor (env : RegistryEnv) (didDocument : DIDDocument)
    (timestamp : Nat) (nonce : String) : List Nat :=
  env.sha256 (env.stringifyUnique didDocument timestamp nonce)

/-- `Utils.toHex(serialNumberBytes)`. -/
def serialNumberFor (env : RegistryEnv) (didDocument : DIDDocument)
    (timestamp : Nat) (nonce : String) : String :=
  toHex (serialNumberBytesFor env didDocument timestamp nonce)

/-- The DID minted by `createDID`. -/
def didFor (env : RegistryEnv) (didDocument : DIDDocument)
    (timestamp : Nat) (nonce : String) : String :=
  "did:bsv:" ++ env.topic ++ ":" ++ serialNumberFor env didDocument timestamp nonce

/-- The `createAction` request assembled by `createDID`: a single one-satoshi
PushDrop output with self-describing `customInstructions`. -/
def createActionArgsFor (env : RegistryEnv) (didDocument : DIDDocument)
    (timestamp : Nat) (nonce : String) : CreateActionArgs :=
  let serialNumberBytes := serialNumberBytesFor env didDocument timestamp nonce
  let serialNumber := toHex serialNumberBytes
  let fields := [serialNumberBytes]
  let protocolID : Nat × String := (0, "tm did")
  let keyID := serialNumber
  let counterparty := "self"
  let lockingScript := env.pushDropLock fields protocolID keyID counterparty true true "before"
  { description := "Create DID transaction with BSV overlay"
    inputs := []
    outputs := [
      { satoshis := 1
        lockingScript := lockingScript
        outputDescription := "DID PushDrop Token"
        basket := some "bsv-did"
        customInstructions :=
          some (env.stringifyCreateCI protocolID counterparty keyID fields didDocument) }]
    labels := ["bsv-did", "create"] }

/-- The final DID document assembled by `createDID`: `id` set to the minted
DID, the context defaulted, every verification-method and role list reset,
and one verification method attached when a public key JWK was supplied. -/
def finalDocFor (env : RegistryEnv) (options : CreateOptions)
    (timestamp : Nat) (nonce : String) : DIDDocument :=
  let didDocument := options.didDocument
  let did := didFor env didDocument timestamp nonce
  let contextResolved :=
    match didDocument.context with
    | some c => c
    | none => defaultContext
  let baseDoc : DIDDocument :=
    { didDocument with
      id := did
      context := some contextResolved
      verificationMethod := []
      authentication := []
      assertionMethod := []
      keyAgreement := []
      capabilityDelegation := []
      capabilityInvocation := [] }
  match options.publicKeyJWK, options.keyId with
  | some jwk, some keyId =>
    if keyId == "" then
      { baseDoc with
        verificationMethod := [⟨did ++ "#key-1", secp256k1Type, did, jwk⟩]
        authentication := [did ++ "#key-1"]
        assertionMethod := [did ++ "#key-1"] }
    else
      { baseDoc with
        verificationMethod := [⟨keyId, secp256k1Type, did, jwk⟩]
        authentication := [keyId]
        assertionMethod := [keyId] }
  | some jwk, none =>
    { baseDoc with
      verificationMethod := [⟨did ++ "#key-1", secp256k1Type, did, jwk⟩]
      authentication := [did ++ "#key-1"]
      assertionMethod := [did ++ "#key-1"] }
  | none, _ => baseDoc

/-- The `did_lookups` record persisted by `createDID` (the DID output is
output 0). -/
def lookupRecordFor (env : RegistryEnv) (options : CreateOptions)
    (timestamp : Nat) (nonce : String) (createdAt : Nat)
    (txid : String) : LookupRecord :=
  ⟨serialNumberFor env options.didDocument timestamp nonce, txid, 0, env.topic,
    some (finalDocFor env options timestamp nonce), createdAt⟩

/-- The best-effort MongoDB write: skipped without a connection, appended on
success, and on an `insertOne` rejection the error is logged and the state
left unchanged. -/
def dbAfterCreate (db : Option DbModel) (rec : LookupRecord) : Option DbModel :=
  match db with
  | some dbm =>
    if dbm.insertFails then some dbm
    else some { dbm with state := dbm.state ++ [rec] }
  | none => none

/-- `createDID`: derive the serial number from the document plus timestamp
and nonce, build the PushDrop output, request the anchoring action,
assemble the final document, then write the lookup record best-effort
(`timestamp` is `Date.now()`, `nonce` the random salt, `createdAt` the
`new Date()` of the lookup record). -/
def createDID (env : RegistryEnv) (db : Option DbModel) (timestamp : Nat)
    (nonce : String) (createdAt : Nat) (options : CreateOptions) :
    Except String (CreateDIDResult × Option DbModel) :=
  match env.createAction (createActionArgsFor env options.didDocument timestamp nonce) with
  | Except.error e => Except.error e
  | Except.ok car =>
    Except.ok
      ({ did := didFor env options.didDocument timestamp nonce
         car := car
         didDocument := finalDocFor env options timestamp nonce },
       dbAfterCreate db (lookupRecordFor env options timestamp nonce createdAt car.txid))

/-- The overlay branch of `resolveDID`, taken when the lookup record holds
only an outpoint: POST the `ls_did` query, fail on a non-success status or
a body that fails JSON decoding, decode the first field of the first output
(structured decode of a string, raw passthrough otherwise).  A field that is
a string failing `JSON.parse` is caught, logged and skipped, after which the
resolution falls through to `null`. -/
def overlayQuery (env : RegistryEnv) (serialNumber : String)
    (didLookup : LookupRecord) : Except String (Option DIDDocument) :=
  if env.overlayProvider = "" then
    Except.error "Overlay provider URL not configured"
  else
    let outpoint := didLookup.txid ++ "." ++ toString didLookup.vout
    let response := env.fetch
      { url := env.overlayProvider ++ "/lookup"
        service := "ls_did"
        serialNumber := serialNumber
        outpoint := outpoint }
    if ¬response.ok then
      Except.error ("Overlay provider error: " ++ toString response.status)
    else
      match response.json with
      | Except.error e => Except.error e
      | Except.ok data =>
        if data.type = "output-list" then
          match data.outputs with
          | [] => Except.ok none
          | output :: _ =>
            match output.fields with
            | [] => Except.ok none
            | f :: _ =>
              match f with
              | FieldValue.doc d => Except.ok (some d)
              | FieldValue.str s =>
                match env.parseDocJson s with
                | some d => Except.ok (some d)
                | none => Except.ok none
        else
          Except.ok none

/-- The body of `resolveDID` before the outer catch: parse the DID, consult
the lookup collection, and fall back to the overlay query when only an
outpoint is stored. -/
def resolveDIDInner (env : RegistryEnv) (db : Option DbModel) (did : String) :
    Except String (Option DIDDocument) :=
  let didParts := jsSplitColon did
  if ¬(didParts.length = 4 ∧ didParts.getD 0 "" = "did" ∧ didParts.getD 1 "" = "bsv") then
    Except.error "Invalid DID format"
  else
    let serialNumber := didParts.getD 3 ""
    match db with
    | none => Except.ok none
    | some dbm =>
      match dbm.state.find? (fun r => r.serialNumber == serialNumber) with
      | none => Except.ok none
      | some didLookup =>
        match didLookup.didDocument with
        | some doc => Except.ok (some doc)
        | none =>
          if didLookup.txid = "" then
            Except.ok none
          else
            overlayQuery env serialNumber didLookup

/-- `resolveDID`: the outer catch rethrows every error with the
`Failed to resolve DID:` prefix (the unused `car` argument mirrors the
source signature). -/
def resolveDID (env : RegistryEnv) (db : Option DbModel) (did : String)
    (_car : CreateActionResult) : Except String (Option DIDDocument) :=
  match resolveDIDInner env db did with
  | Except.ok v => Except.ok v
  | Except.error msg => Except.error ("Failed to resolve DID: " ++ msg)

structure UpdateDIDResult where
  did : String
  txid : String
  deriving DecidableEq

def digitsToNat (ds : List Char) : Nat :=
  ds.foldl (fun acc c => acc * 10 + (c.toNat - 48)) 0

/-- JavaScript `parseInt`: longest leading digit run, `NaN` when empty. -/
def parseIntJS (s : String) : Option Nat :=
  let digits := s.data.takeWhile (fun c => c.isDigit)
  if digits.isEmpty then none else some (digitsToNat digits)

/-- JavaScript `String(n)` on a number that may be `NaN`. -/
def numToString : Option Nat → String
  | none => "NaN"
  | some n => toString n

/-- The `createAction` request assembled by `updateDID`: one input spending
the previous anchor outpoint, one OP_RETURN output carrying the new
document and one fresh-ownership output. -/
def updateActionArgs (env : RegistryEnv) (previousTxid voutStr : String)
    (newDidDocument : DIDDocument) : CreateActionArgs :=
  { description := "Update DID on BSV overlay (topic: " ++ env.topic ++ ")"
    inputs := [{ outpoint := previousTxid ++ ":" ++ voutStr
                 inputDescription := "Previous DID output" }]
    outputs := [
      { satoshis := 0
        lockingScript := env.opReturnScript
          [env.topic, "UPDATE", previousTxid, voutStr, env.stringifyDoc newDidDocument]
        outputDescription := "Updated DID Document"
        basket := none
        customInstructions := none },
      { satoshis := 1
        lockingScript := "76a914" ++ String.mk (List.replicate 40 '0') ++ "88ac"
        outputDescription := "Updated DID identifier"
        basket := none
        customInstructions := some env.stringifyUpdateCI }]
    labels := ["quarkid", "did", "update"] }

/-- `updateDID`: require the five-segment outpoint form, spend the previous
anchor, and return the new DID built from the new txid. -/
def updateDID (env : RegistryEnv) (did : String) (newDidDocument : DIDDocument) :
    Except String UpdateDIDResult :=
  let parts := jsSplitColon did
  if parts.length ≠ 5 then
    Except.error "Invalid DID format"
  else
    let previousTxid := parts.getD 3 ""
    let previousVout := parseIntJS (parts.getD 4 "")
    match env.createAction
      (updateActionArgs env previousTxid (numToString previousVout) newDidDocument) with
    | Except.error e => Except.error e
    | Except.ok result =>
      let newDid := "did:bsv:" ++ env.topic ++ ":" ++ result.txid ++ ":1"
      Except.ok { did := newDid, txid := result.txid }

end Registry

/-! ## Concrete instances used by the witnesses -/

namespace Issuer

def wExample : WalletModel :=
  { verifyNonceOk := fun _ _ => true
    serverNonceFor := fun _ => "U0VSVkVS"
    hmac := fun data _ _ _ => data
    decryptFields := fun _ f _ => Except.ok f
    identityPublicKey := "02server"
    signCert := fun _ => Except.ok "3045ff" }

def bodyExample : SignRequestBody :=
  { clientNonce := some "QQ=="
    type := some "certType"
    fields := some [("cool", "encrypted")]
    masterKeyring := some [("cool", "keyringEntry")] }

def snExample : String := wExample.serverNonceFor "02idk"

def certExample : Certificate :=
  { type := "certType"
    serialNumber := computeSerialNumber wExample "QQ==" snExample "02idk"
    subject := "02idk"
    certifier := wExample.identityPublicKey
    revocationOutpoint := revocationOutpointSentinel
    fields := [("cool", "encrypted")]
    signature := "3045ff" }

end Issuer

namespace Registry

def envExample : RegistryEnv :=
  { topic := "topicT"
    overlayProvider := "http://overlay"
    sha256 := fun _ => List.replicate 32 171
    stringifyUnique := fun _ _ _ => "unique"
    stringifyDoc := fun _ => "doc"
    pushDropLock := fun _ _ _ _ _ _ _ => "51"
    stringifyCreateCI := fun _ _ _ _ _ => "ci"
    stringifyUpdateCI := "uci"
    createAction := fun _ => Except.ok ⟨"beeffeed"⟩
    fetch := fun _ => { ok := true, status := 200, json := Except.ok ⟨"output-list", []⟩ }
    parseDocJson := fun _ => none
    opReturnScript := fun _ => "006a" }

def docExample : DIDDocument :=
  { id := ""
    context := none
    verificationMethod := []
    authentication := ["stale-entry"]
    assertionMethod := []
    keyAgreement := ["stale-entry"]
    capabilityDelegation := []
    capabilityInvocation := ["stale-entry"] }

def optionsExample : CreateOptions :=
  { didDocument := docExample, publicKeyJWK := some "jwk1", keyId := some "key9" }

def dbEmpty : DbModel := { state := [], insertFails := false }

def dbBroken : DbModel := { state := [], insertFails := true }

def envStatus500 : RegistryEnv :=
  { envExample with
    fetch := fun _ => { ok := false, status := 500, json := Except.error "nope" } }

def envMalformedPayload : RegistryEnv :=
  { envExample with
    fetch := fun _ =>
      { ok := true
        status := 200
        json := Except.ok ⟨"output-list", [⟨[FieldValue.str "not json"]⟩]⟩ } }

/-- An index entry that stores only the outpoint, no cached document. -/
def dbOutpointOnly : DbModel :=
  { state := [⟨"abc", "ff00", 0, "t", none, 0⟩], insertFails := false }

def recExample : LookupRecord := lookupRecordFor envExample optionsExample 0 "n" 0 "beeffeed"

def createResExample : CreateDIDResult × Option DbModel :=
  ({ did := didFor envExample docExample 0 "n"
     car := ⟨"beeffeed"⟩
     didDocument := finalDocFor envExample optionsExample 0 "n" },
   dbAfterCreate (some dbEmpty) recExample)

def createResNoDb : CreateDIDResult × Option DbModel := (createResExample.1, none)

end Registry

/-! ## Theorems: certificate issuer helper lemmas -/

namespace Issuer

/-- Destructuring a successful response of the pipeline: the server nonce is
the one created for this identity, and the certificate carries the derived
serial number, the submitted fields, the requester as subject and the
server's identity key as certifier. -/
lemma signCertificatePipeline_success (w : WalletModel) (ik cn ty : String)
    (f mk : List (String × String)) (r : Response)
    (h : signCertificatePipeline w ik cn ty f mk = Except.ok r) :
    ∃ sig, r = ⟨200, RespBody.success
      { type := ty
        serialNumber := computeSerialNumber w cn (w.serverNonceFor ik) ik
        subject := ik
        certifier := w.identityPublicKey
        revocationOutpoint := revocationOutpointSentinel
        fields := f
        signature := sig } (w.serverNonceFor ik)⟩ := by
  unfold signCertificatePipeline at h
  by_cases hv : w.verifyNonceOk cn ik
  · rw [hv] at h
    simp only [Bool.not_true, Bool.false_eq_true, if_false] at h
    cases hd : w.decryptFields mk f ik with
    | error e => rw [hd] at h; simp at h
    | ok dec =>
      rw [hd] at h
      simp only [] at h
      cases hs : w.signCert
        { type := ty
          serialNumber := computeSerialNumber w cn (w.serverNonceFor ik) ik
          subject := ik
          certifier := w.identityPublicKey
          revocationOutpoint := revocationOutpointSentinel
          fields := f
          signature := "" } with
      | error e => rw [hs] at h; simp at h
      | ok sig =>
        rw [hs] at h
        simp only [Except.ok.injEq] at h
        exact ⟨sig, h.symm⟩
  · simp only [Bool.not_eq_true] at hv
    rw [hv] at h
    simp at h

/-- Destructuring a 200 response of the whole route: validation passed, so
all four request members are present, and the response carries the pipeline
certificate. -/
lemma signCertificate_success_shape (w : WalletModel) (ik : String)
    (body : SignRequestBody) (cert : Certificate) (sn : String)
    (h : signCertificate w ik body = ⟨200, RespBody.success cert sn⟩) :
    ∃ cn ty f mk sig, body.clientNonce = some cn ∧ body.type = some ty ∧
      body.fields = some f ∧ body.masterKeyring = some mk ∧
      sn = w.serverNonceFor ik ∧
      cert = { type := ty
               serialNumber := computeSerialNumber w cn sn ik
               subject := ik
               certifier := w.identityPublicKey
               revocationOutpoint := revocationOutpointSentinel
               fields := f
               signature := sig } := by
  unfold signCertificate at h
  cases hc : certifierSignCheckArgs body with
  | error msg => rw [hc] at h; cases h
  | ok u =>
    rw [hc] at h
    cases hcn : body.clientNonce with
    | none => rw [hcn] at h; cases h
    | some cn =>
      cases hty : body.type with
      | none => rw [hcn, hty] at h; cases h
      | some ty =>
        cases hf : body.fields with
        | none => rw [hcn, hty, hf] at h; cases h
        | some f =>
          cases hmk : body.masterKeyring with
          | none => rw [hcn, hty, hf, hmk] at h; cases h
          | some mk =>
            rw [hcn, hty, hf, hmk] at h
            simp only [] at h
            cases hp : signCertificatePipeline w ik cn ty f mk with
            | error e => rw [hp] at h; simp [genericInternalError] at h
            | ok resp =>
              rw [hp] at h
              simp only [] at h
              obtain ⟨sig, hr⟩ := signCertificatePipeline_success w ik cn ty f mk resp hp
              subst hr
              cases h
              exact ⟨cn, ty, f, mk, sig, rfl, rfl, rfl, rfl, rfl, rfl⟩

/-- C1: for every request that passes validation and nonce verification and
receives a signed certificate, the serial number equals the base64 encoding
of the wallet's keyed digest (HMAC) computed over the base64 decoding of
clientNonce ++ serverNonce, keyed under the protocol tag
(2, "certificate issuance") with key id serverNonce ++ clientNonce and
counterparty the requester's identity key; consequently two successful
requests against the same wallet with identical clientNonce and identity key
reproduce the same server nonce and serial number. -/
theorem serialNumber_is_keyed_digest (w : WalletModel) (identityKey : String)
    (body : SignRequestBody) (cert : Certificate) (serverNonce : String)
    (h : signCertificate w identityKey body =
      ⟨200, RespBody.success cert serverNonce⟩) :
    (∃ clientNonce, body.clientNonce = some clientNonce ∧
      cert.serialNumber =
        toBase64 (w.hmac (base64Decode (clientNonce ++ serverNonce))
          (2, "certificate issuance") (serverNonce ++ clientNonce) identityKey)) ∧
    (∀ body2 cert2 serverNonce2,
      signCertificate w identityKey body2 =
        ⟨200, RespBody.success cert2 serverNonce2⟩ →
      body2.clientNonce = body.clientNonce →
      serverNonce2 = serverNonce ∧ cert2.serialNumber = cert.serialNumber) := by
  obtain ⟨cn, ty, f, mk, sig, hcn, hty, hf, hmk, hsn, hcert⟩ :=
    signCertificate_success_shape w identityKey body cert serverNonce h
  constructor
  · refine ⟨cn, hcn, ?_⟩
    rw [hcert, hsn]
    rfl
  · intro body2 cert2 sn2 h2 hcn2
    obtain ⟨cn2, ty2, f2, mk2, sig2, hcn2', hty2, hf2, hmk2, hsn2, hcert2⟩ :=
      signCertificate_success_shape w identityKey body2 cert2 sn2 h2
    have hcneq : cn2 = cn := by
      rw [hcn2', hcn] at hcn2
      exact Option.some.inj hcn2
    refine ⟨by rw [hsn2, hsn], ?_⟩
    rw [hcert2, hcert, hcneq, hsn2, hsn]

/-- C1 witness: a concrete request against the concrete wallet model. -/
theorem serialNumber_is_keyed_digest_witness :
    ∃ clientNonce, bodyExample.clientNonce = some clientNonce ∧
      certExample.serialNumber =
        toBase64 (wExample.hmac (base64Decode (clientNonce ++ snExample))
          (2, "certificate issuance") (snExample ++ clientNonce) "02idk") :=
  (serialNumber_is_keyed_digest wExample "02idk" bodyExample certExample
    snExample (by decide)).1

/-- C2: a successfully signed certificate stores exactly the field values as
submitted (still encrypted); and the route's response does not depend on the
decrypted plaintext at all: replacing the decryption collaborator by any
other one that succeeds and fails on the same inputs leaves the full
response unchanged. -/
theorem certificate_fields_stay_encrypted (w : WalletModel)
    (identityKey : String) (body : SignRequestBody) :
    (∀ cert serverNonce,
      signCertificate w identityKey body =
        ⟨200, RespBody.success cert serverNonce⟩ →
      body.fields = some cert.fields) ∧
    (∀ d1 d2 : List (String × String) → List (String × String) → String →
        Except String (List (String × String)),
      (∀ kr f, exceptIsOk (d1 kr f identityKey) = exceptIsOk (d2 kr f identityKey)) →
      signCertificate { w with decryptFields := d1 } identityKey body =
        signCertificate { w with decryptFields := d2 } identityKey body) := by
  constructor
  · intro cert serverNonce h
    obtain ⟨cn, ty, f, mk, sig, hcn, hty, hf, hmk, hsn, hcert⟩ :=
      signCertificate_success_shape w identityKey body cert serverNonce h
    rw [hf, hcert]
  · intro d1 d2 hd
    unfold signCertificate
    cases hc : certifierSignCheckArgs body with
    | error m => rfl
    | ok u =>
      cases hcn : body.clientNonce with
      | none => rfl
      | some cn =>
        cases hty : body.type with
        | none => rfl
        | some ty =>
          cases hf : body.fields with
          | none => rfl
          | some f =>
            cases hmk : body.masterKeyring with
            | none => rfl
            | some mk =>
              simp only []
              unfold signCertificatePipeline
              by_cases hv : w.verifyNonceOk cn identityKey
              · simp only [hv, Bool.not_true, Bool.false_eq_true, if_false]
                have hok := hd mk f
                cases h1 : d1 mk f identityKey with
                | error e1 =>
                  cases h2 : d2 mk f identityKey with
                  | error e2 => rfl
                  | ok b =>
                    rw [h1, h2] at hok
                    simp [exceptIsOk] at hok
                | ok a =>
                  cases h2 : d2 mk f identityKey with
                  | error e2 =>
                    rw [h1, h2] at hok
                    simp [exceptIsOk] at hok
                  | ok b => rfl
              · simp only [Bool.not_eq_true] at hv
                simp only [hv, Bool.not_false, if_true]

/-- C2 witness: the concrete request, and two decryption collaborators with
the same success domain but different plaintexts. -/
theorem certificate_fields_stay_encrypted_witness :
    bodyExample.fields = some certExample.fields ∧
    signCertificate { wExample with decryptFields := fun _ f _ => Except.ok f }
        "02idk" bodyExample =
      signCertificate { wExample with decryptFields := fun _ _ _ => Except.ok [] }
        "02idk" bodyExample :=
  ⟨(certificate_fields_stay_encrypted wExample "02idk" bodyExample).1
      certExample snExample (by decide),
    (certificate_fields_stay_encrypted wExample "02idk" bodyExample).2
      (fun _ f _ => Except.ok f) (fun _ _ _ => Except.ok [])
      (fun _ _ => by rfl)⟩

/-- C8: a request missing one of clientNonce, type, fields, masterKeyring is
answered with HTTP 400 and the description naming the first missing member
in that check order; once validation passes, every pipeline failure (nonce
verification, decryption, signing) is answered with the fixed HTTP 500 body
status error, code ERR_INTERNAL and a generic description, independent of
the internal failure message. -/
theorem error_response_taxonomy (w : WalletModel) (identityKey : String)
    (body : SignRequestBody) :
    (strTruthy body.clientNonce = false →
      signCertificate w identityKey body =
        ⟨400, RespBody.error none "Missing client nonce!"⟩) ∧
    (strTruthy body.clientNonce = true → strTruthy body.type = false →
      signCertificate w identityKey body =
        ⟨400, RespBody.error none "Missing certificate type!"⟩) ∧
    (strTruthy body.clientNonce = true → strTruthy body.type = true →
      body.fields = none →
      signCertificate w identityKey body =
        ⟨400, RespBody.error none "Missing certificate fields to sign!"⟩) ∧
    (strTruthy body.clientNonce = true → strTruthy body.type = true →
      body.fields ≠ none → body.masterKeyring = none →
      signCertificate w identityKey body =
        ⟨400, RespBody.error none "Missing masterKeyring to decrypt fields!"⟩) ∧
    (∀ cn ty f mk e,
      body = ⟨some cn, some ty, some f, some mk⟩ → cn ≠ "" → ty ≠ "" →
      signCertificatePipeline w identityKey cn ty f mk = Except.error e →
      signCertificate w identityKey body =
        ⟨500, RespBody.error (some "ERR_INTERNAL")
          "An internal error has occurred."⟩) := by
  refine ⟨?_, ?_, ?_, ?_, ?_⟩
  · intro h1
    unfold signCertificate certifierSignCheckArgs
    simp [h1]
  · intro h1 h2
    unfold signCertificate certifierSignCheckArgs
    simp [h1, h2]
  · intro h1 h2 h3
    unfold signCertificate certifierSignCheckArgs
    simp [h1, h2, h3]
  · intro h1 h2 h3 h4
    unfold signCertificate certifierSignCheckArgs
    simp [h1, h2, h4, Option.isNone_iff_eq_none, h3]
  · intro cn ty f mk e hbody hcn hty hp
    subst hbody
    unfold signCertificate certifierSignCheckArgs
    simp only [strTruthy, Option.isNone_some]
    rw [hp]
    simp [genericInternalError, hcn, hty]

/-- C8 witness: a request missing the masterKeyring, and a well-formed
request whose decryption fails. -/
theorem error_response_taxonomy_witness :
    signCertificate wExample "02idk"
        { clientNonce := some "QQ==", type := some "certType"
          fields := some [("cool", "encrypted")], masterKeyring := none } =
      ⟨400, RespBody.error none "Missing masterKeyring to decrypt fields!"⟩ ∧
    signCertificate { wExample with decryptFields := fun _ _ _ => Except.error "boom" }
        "02idk" bodyExample =
      ⟨500, RespBody.error (some "ERR_INTERNAL")
        "An internal error has occurred."⟩ :=
  ⟨(error_response_taxonomy wExample "02idk"
      { clientNonce := some "QQ==", type := some "certType"
        fields := some [("cool", "encrypted")], masterKeyring := none }).2.2.2.1
      (by decide) (by decide) (by decide) (by decide),
    (error_response_taxonomy
        { wExample with decryptFields := fun _ _ _ => Except.error "boom" }
        "02idk" bodyExample).2.2.2.2
      "QQ==" "certType" [("cool", "encrypted")] [("cool", "keyringEntry")]
      "boom" (by decide) (by decide) (by decide) (by rfl)⟩

end Issuer

/-! ## Theorems: registry helper lemmas -/

namespace Registry

lemma splitColonAux_cons_colon (rest : List Char) :
    splitColonAux (':' :: rest) = [] :: splitColonAux rest := by
  simp [splitColonAux]

lemma splitColonAux_cons_ne (c : Char) (rest : List Char) (h : ¬ c = ':') :
    splitColonAux (c :: rest) =
      match splitColonAux rest with
      | [] => [[c]]
      | hd :: tl => (c :: hd) :: tl := by
  simp [splitColonAux, h]

lemma splitColonAux_append (xs : List Char) (hx : ':' ∉ xs) (ys : List Char)
    (a : List Char) (as : List (List Char)) (h : splitColonAux ys = a :: as) :
    splitColonAux (xs ++ ys) = (xs ++ a) :: as := by
  induction xs with
  | nil => simpa using h
  | cons c rest ih =>
    have hc : ¬ c = ':' := fun e => hx (by rw [e]; exact List.mem_cons_self _ _)
    have hrest : ':' ∉ rest := fun m => hx (List.mem_cons_of_mem _ m)
    rw [List.cons_append, splitColonAux_cons_ne c _ hc, ih hrest]
    rfl

lemma splitColonAux_no_colon (xs : List Char) (hx : ':' ∉ xs) :
    splitColonAux xs = [xs] := by
  have h := splitColonAux_append xs hx [] [] [] rfl
  simpa using h

/-- Splitting a creation-form DID whose topic and final segment are
colon-free yields exactly the four expected segments. -/
lemma jsSplitColon_create_form (t h : String) (ht : ':' ∉ t.data)
    (hh : ':' ∉ h.data) :
    jsSplitColon ("did:bsv:" ++ t ++ ":" ++ h) = ["did", "bsv", t, h] := by
  unfold jsSplitColon
  have hdata : ("did:bsv:" ++ t ++ ":" ++ h).data =
      ['d','i','d'] ++ (':' :: (['b','s','v'] ++ (':' :: (t.data ++ (':' :: h.data))))) := by
    simp only [String.data_append, List.append_assoc]
    rfl
  rw [hdata]
  have s1 : splitColonAux (':' :: h.data) = [] :: [h.data] := by
    rw [splitColonAux_cons_colon, splitColonAux_no_colon h.data hh]
  have s2 : splitColonAux (t.data ++ (':' :: h.data)) = (t.data ++ []) :: [h.data] :=
    splitColonAux_append t.data ht _ [] [h.data] s1
  rw [List.append_nil] at s2
  have s3 : splitColonAux (':' :: (t.data ++ (':' :: h.data))) =
      [] :: t.data :: [h.data] := by
    rw [splitColonAux_cons_colon, s2]
  have s4 : splitColonAux (['b','s','v'] ++ (':' :: (t.data ++ (':' :: h.data)))) =
      (['b','s','v'] ++ []) :: t.data :: [h.data] :=
    splitColonAux_append ['b','s','v'] (by decide) _ [] _ s3
  rw [List.append_nil] at s4
  have s5 : splitColonAux (':' :: (['b','s','v'] ++ (':' :: (t.data ++ (':' :: h.data))))) =
      [] :: ['b','s','v'] :: t.data :: [h.data] := by
    rw [splitColonAux_cons_colon, s4]
  have s6 : splitColonAux
      (['d','i','d'] ++ (':' :: (['b','s','v'] ++ (':' :: (t.data ++ (':' :: h.data)))))) =
      (['d','i','d'] ++ []) :: ['b','s','v'] :: t.data :: [h.data] :=
    splitColonAux_append ['d','i','d'] (by decide) _ [] _ s5
  rw [List.append_nil] at s6
  rw [s6]
  rfl

lemma getD_mem_or (l : List Char) (i : Nat) (d : Char) :
    l.getD i d ∈ l ∨ l.getD i d = d := by
  induction l generalizing i with
  | nil => right; cases i <;> rfl
  | cons a as ih =>
    cases i with
    | zero => left; simp [List.getD]
    | succ n =>
      have he : (a :: as).getD (n + 1) d = as.getD n d := by simp [List.getD]
      rw [he]
      rcases ih n with hm | hd
      · left; exact List.mem_cons_of_mem _ hm
      · right; exact hd

lemma byteToHexChars_mem (b : Nat) (c : Char) (hc : c ∈ byteToHexChars b) :
    c ∈ hexChars := by
  have h0 : ('0' : Char) ∈ hexChars := by decide
  simp only [byteToHexChars, List.mem_cons, List.mem_singleton] at hc
  rcases hc with h | h | h
  · subst h
    rcases getD_mem_or hexChars (b / 16 % 16) '0' with hm | he
    · exact hm
    · rw [he]; exact h0
  · subst h
    rcases getD_mem_or hexChars (b % 16) '0' with hm | he
    · exact hm
    · rw [he]; exact h0
  · cases h

lemma toHex_chars_hex (bs : List Nat) : ∀ c ∈ (toHex bs).data, c ∈ hexChars := by
  intro c hc
  have hc2 : c ∈ (bs.map byteToHexChars).flatten := hc
  rcases List.mem_flatten.mp hc2 with ⟨l, hl, hcl⟩
  rcases List.mem_map.mp hl with ⟨b, _, hb⟩
  exact byteToHexChars_mem b c (hb ▸ hcl)

lemma toHex_no_colon (bs : List Nat) : ':' ∉ (toHex bs).data := by
  intro h
  have := toHex_chars_hex bs ':' h
  simp [hexChars] at this

lemma toHex_length (bs : List Nat) : (toHex bs).length = 2 * bs.length := by
  show ((bs.map byteToHexChars).flatten).length = 2 * bs.length
  induction bs with
  | nil => rfl
  | cons b rest ih =>
    have h2 : (byteToHexChars b).length = 2 := rfl
    simp only [List.map_cons, List.flatten_cons, List.length_append, ih, h2,
      List.length_cons]
    omega

/-- The shape of the final document assembled by `createDID`: `id` is the
minted DID, the last three role lists are always reset to empty, and the
verification-method, authentication and assertionMethod lists are empty
without a supplied public key JWK and singletons with one. -/
lemma finalDocFor_spec (env : RegistryEnv) (options : CreateOptions)
    (timestamp : Nat) (nonce : String) :
    (finalDocFor env options timestamp nonce).id =
        didFor env options.didDocument timestamp nonce ∧
    (finalDocFor env options timestamp nonce).keyAgreement = [] ∧
    (finalDocFor env options timestamp nonce).capabilityDelegation = [] ∧
    (finalDocFor env options timestamp nonce).capabilityInvocation = [] ∧
    (options.publicKeyJWK = none →
      (finalDocFor env options timestamp nonce).verificationMethod = [] ∧
      (finalDocFor env options timestamp nonce).authentication = [] ∧
      (finalDocFor env options timestamp nonce).assertionMethod = []) ∧
    (∀ jwk, options.publicKeyJWK = some jwk →
      (finalDocFor env options timestamp nonce).verificationMethod.length = 1 ∧
      (finalDocFor env options timestamp nonce).authentication.length = 1 ∧
      (finalDocFor env options timestamp nonce).assertionMethod.length = 1) := by
  unfold finalDocFor
  cases hj : options.publicKeyJWK with
  | none => simp
  | some jwk =>
    cases hk : options.keyId with
    | none => simp
    | some k =>
      by_cases hke : k == ""
      · simp [hke]
      · simp [hke]

/-- Eliminating a successful `createDID`: the wallet action succeeded and the
result is assembled from the named components. -/
lemma createDID_ok_elim (env : RegistryEnv) (db : Option DbModel)
    (timestamp createdAt : Nat) (nonce : String) (options : CreateOptions)
    (res : CreateDIDResult × Option DbModel)
    (h : createDID env db timestamp nonce createdAt options = Except.ok res) :
    ∃ car, env.createAction (createActionArgsFor env options.didDocument timestamp nonce)
        = Except.ok car ∧
      res = ({ did := didFor env options.didDocument timestamp nonce
               car := car
               didDocument := finalDocFor env options timestamp nonce },
             dbAfterCreate db (lookupRecordFor env options timestamp nonce createdAt car.txid)) := by
  unfold createDID at h
  cases hca : env.createAction (createActionArgsFor env options.didDocument timestamp nonce) with
  | error e => rw [hca] at h; cases h
  | ok car =>
    rw [hca] at h
    simp only [Except.ok.injEq] at h
    exact ⟨car, rfl, h.symm⟩

lemma resolveDID_of_inner_ok (env : RegistryEnv) (db : Option DbModel)
    (did : String) (car : CreateActionResult) (v : Option DIDDocument)
    (h : resolveDIDInner env db did = Except.ok v) :
    resolveDID env db did car = Except.ok v := by
  unfold resolveDID
  rw [h]

lemma resolveDID_of_inner_error (env : RegistryEnv) (db : Option DbModel)
    (did : String) (car : CreateActionResult) (e : String)
    (h : resolveDIDInner env db did = Except.error e) :
    resolveDID env db did car = Except.error ("Failed to resolve DID: " ++ e) := by
  unfold resolveDID
  rw [h]

/-- Reducing `resolveDIDInner` on a well-formed creation-form DID whose
serial number is found in the lookup collection. -/
lemma resolveDIDInner_entry (env : RegistryEnv) (dbm : DbModel) (t serial : String)
    (rec : LookupRecord)
    (ht : ':' ∉ t.data) (hs : ':' ∉ serial.data)
    (hfind : dbm.state.find? (fun r => r.serialNumber == serial) = some rec) :
    resolveDIDInner env (some dbm) ("did:bsv:" ++ t ++ ":" ++ serial) =
      match rec.didDocument with
      | some doc => Except.ok (some doc)
      | none =>
        if rec.txid = "" then Except.ok none
        else overlayQuery env serial rec := by
  unfold resolveDIDInner
  rw [jsSplitColon_create_form t serial ht hs]
  simp only [List.length_cons, List.length_nil, List.getD_cons_zero,
    List.getD_cons_succ, hfind]
  simp

/-- C4: a DID whose colon-segment count is not 4 makes resolveDID fail with
exactly the format error (wrapped by the resolver's catch), and a DID whose
segment count is not 5 makes updateDID fail with exactly the format error;
in both cases no other computation runs and no unrelated exception occurs. -/
theorem wrong_segment_count_is_format_error (env : RegistryEnv)
    (db : Option DbModel) (did : String) (car : CreateActionResult)
    (newDoc : DIDDocument) :
    ((jsSplitColon did).length ≠ 4 →
      resolveDID env db did car =
        Except.error "Failed to resolve DID: Invalid DID format") ∧
    ((jsSplitColon did).length ≠ 5 →
      updateDID env did newDoc = Except.error "Invalid DID format") := by
  constructor
  · intro h4
    have hi : resolveDIDInner env db did = Except.error "Invalid DID format" := by
      unfold resolveDIDInner
      rw [if_pos (fun hc => h4 hc.1)]
    rw [resolveDID_of_inner_error env db did car _ hi]
    rfl
  · intro h5
    unfold updateDID
    rw [if_pos h5]

/-- C4 witness: a three-segment DID string. -/
theorem wrong_segment_count_is_format_error_witness :
    resolveDID envExample none "did:bsv:x" ⟨"tx"⟩ =
      Except.error "Failed to resolve DID: Invalid DID format" ∧
    updateDID envExample "did:bsv:x" docExample =
      Except.error "Invalid DID format" :=
  ⟨(wrong_segment_count_is_format_error envExample none "did:bsv:x" ⟨"tx"⟩
      docExample).1 (by decide),
   (wrong_segment_count_is_format_error envExample none "did:bsv:x" ⟨"tx"⟩
      docExample).2 (by decide)⟩

/-- C5: a successful createDID mints the DID
"did:bsv:" ++ topic ++ ":" ++ hex(sha256(stringify(document, timestamp,
nonce))), and with a 32-byte digest the final segment is 64 lowercase hex
characters. -/
theorem create_serial_and_did_shape (env : RegistryEnv) (db : Option DbModel)
    (timestamp createdAt : Nat) (nonce : String) (options : CreateOptions)
    (res : CreateDIDResult × Option DbModel)
    (hlen : (env.sha256 (env.stringifyUnique options.didDocument timestamp nonce)).length = 32)
    (h : createDID env db timestamp nonce createdAt options = Except.ok res) :
    res.1.did = "did:bsv:" ++ env.topic ++ ":"
        ++ toHex (env.sha256 (env.stringifyUnique options.didDocument timestamp nonce)) ∧
    (serialNumberFor env options.didDocument timestamp nonce).length = 64 ∧
    ∀ c ∈ (serialNumberFor env options.didDocument timestamp nonce).data,
      c ∈ hexChars := by
  obtain ⟨car, hca, hres⟩ :=
    createDID_ok_elim env db timestamp createdAt nonce options res h
  subst hres
  refine ⟨rfl, ?_, ?_⟩
  · unfold serialNumberFor serialNumberBytesFor
    rw [toHex_length, hlen]
  · unfold serialNumberFor
    exact toHex_chars_hex _

/-- C5 witness: the concrete environment with a 32-byte digest. -/
theorem create_serial_and_did_shape_witness :
    createResExample.1.did = "did:bsv:" ++ envExample.topic ++ ":"
      ++ toHex (envExample.sha256
        (envExample.stringifyUnique optionsExample.didDocument 0 "n")) :=
  (create_serial_and_did_shape envExample (some dbEmpty) 0 0 "n" optionsExample
    createResExample (by decide) (by rfl)).1

/-- C6: when the MongoDB insert rejects, the failure is swallowed: createDID
still returns exactly the success result it returns without a database, and
the database state is left unchanged (the anchor is not rolled back). -/
theorem db_failure_swallowed (env : RegistryEnv) (dbm : DbModel)
    (timestamp createdAt : Nat) (nonce : String) (options : CreateOptions)
    (res : CreateDIDResult × Option DbModel)
    (hfail : dbm.insertFails = true)
    (h : createDID env none timestamp nonce createdAt options = Except.ok res) :
    createDID env (some dbm) timestamp nonce createdAt options =
      Except.ok (res.1, some dbm) := by
  obtain ⟨car, hca, hres⟩ :=
    createDID_ok_elim env none timestamp createdAt nonce options res h
  subst hres
  unfold createDID
  rw [hca]
  simp [dbAfterCreate, hfail]

/-- C6 witness: a database whose insert rejects. -/
theorem db_failure_swallowed_witness :
    createDID envExample (some dbBroken) 0 "n" 0 optionsExample =
      Except.ok (createResNoDb.1, some dbBroken) :=
  db_failure_swallowed envExample dbBroken 0 0 "n" optionsExample createResNoDb
    (by rfl) (by rfl)

/-- C7: on a five-segment DID, updateDID builds a request with exactly one
input spending the outpoint parsed from segments four and five and exactly
two outputs, hands it to the wallet, and on success returns the DID
"did:bsv:" ++ topic ++ ":" ++ newTxid ++ ":1". -/
theorem update_one_input_two_outputs (env : RegistryEnv) (did : String)
    (newDoc : DIDDocument) (v : Nat)
    (hlen : (jsSplitColon did).length = 5)
    (hv : parseIntJS ((jsSplitColon did).getD 4 "") = some v) :
    (updateActionArgs env ((jsSplitColon did).getD 3 "") (toString v) newDoc).inputs =
      [⟨((jsSplitColon did).getD 3 "") ++ ":" ++ toString v, "Previous DID output"⟩] ∧
    (updateActionArgs env ((jsSplitColon did).getD 3 "") (toString v) newDoc).outputs.length = 2 ∧
    updateDID env did newDoc =
      (match env.createAction
          (updateActionArgs env ((jsSplitColon did).getD 3 "") (toString v) newDoc) with
        | Except.error e => Except.error e
        | Except.ok result =>
          Except.ok ⟨"did:bsv:" ++ env.topic ++ ":" ++ result.txid ++ ":1", result.txid⟩) ∧
    (∀ r, updateDID env did newDoc = Except.ok r →
      r.did = "did:bsv:" ++ env.topic ++ ":" ++ r.txid ++ ":1") := by
  have hupd : updateDID env did newDoc =
      (match env.createAction
          (updateActionArgs env ((jsSplitColon did).getD 3 "") (toString v) newDoc) with
        | Except.error e => Except.error e
        | Except.ok result =>
          Except.ok ⟨"did:bsv:" ++ env.topic ++ ":" ++ result.txid ++ ":1", result.txid⟩) := by
    unfold updateDID
    rw [if_neg (by rw [hlen]; exact fun hc => hc rfl), hv]
    rfl
  refine ⟨rfl, rfl, hupd, ?_⟩
  intro r hr
  rw [hupd] at hr
  cases hca : env.createAction
      (updateActionArgs env ((jsSplitColon did).getD 3 "") (toString v) newDoc) with
  | error e => rw [hca] at hr; cases hr
  | ok result =>
    rw [hca] at hr
    simp only [Except.ok.injEq] at hr
    rw [← hr]

/-- C7 witness: a concrete five-segment DID. -/
theorem update_one_input_two_outputs_witness :
    (updateActionArgs envExample ((jsSplitColon "did:bsv:topicT:aa:1").getD 3 "")
        (toString 1) docExample).inputs =
      [⟨((jsSplitColon "did:bsv:topicT:aa:1").getD 3 "") ++ ":" ++ toString 1,
        "Previous DID output"⟩] :=
  (update_one_input_two_outputs envExample "did:bsv:topicT:aa:1" docExample 1
    (by decide) (by decide)).1

/-- C10: the document returned by createDID has all six verification lists
reset: keyAgreement, capabilityDelegation, capabilityInvocation are always
empty, and verificationMethod, authentication, assertionMethod (input
entries discarded) are empty without a supplied public key JWK and have
exactly one entry with one. -/
theorem create_resets_role_lists (env : RegistryEnv) (db : Option DbModel)
    (timestamp createdAt : Nat) (nonce : String) (options : CreateOptions)
    (res : CreateDIDResult × Option DbModel)
    (h : createDID env db timestamp nonce createdAt options = Except.ok res) :
    res.1.didDocument.keyAgreement = [] ∧
    res.1.didDocument.capabilityDelegation = [] ∧
    res.1.didDocument.capabilityInvocation = [] ∧
    (options.publicKeyJWK = none →
      res.1.didDocument.verificationMethod = [] ∧
      res.1.didDocument.authentication = [] ∧
      res.1.didDocument.assertionMethod = []) ∧
    (∀ jwk, options.publicKeyJWK = some jwk →
      res.1.didDocument.verificationMethod.length = 1 ∧
      res.1.didDocument.authentication.length = 1 ∧
      res.1.didDocument.assertionMethod.length = 1) := by
  obtain ⟨car, hca, hres⟩ :=
    createDID_ok_elim env db timestamp createdAt nonce options res h
  subst hres
  obtain ⟨hid, hka, hcd, hci, hnone, hsome⟩ :=
    finalDocFor_spec env options timestamp nonce
  exact ⟨hka, hcd, hci, hnone, hsome⟩

/-- C10 witness: input document with stale role entries and a supplied JWK. -/
theorem create_resets_role_lists_witness :
    createResExample.1.didDocument.keyAgreement = [] ∧
    createResExample.1.didDocument.verificationMethod.length = 1 :=
  ⟨(create_resets_role_lists envExample (some dbEmpty) 0 0 "n" optionsExample
      createResExample (by rfl)).1,
   ((create_resets_role_lists envExample (some dbEmpty) 0 0 "n" optionsExample
      createResExample (by rfl)).2.2.2.2 "jwk1" rfl).1⟩

/-- C3: immediately after a successful createDID with the lookup index
available, written, and previously free of the fresh serial number,
resolveDID on the returned DID returns exactly the stored final document;
its id equals the created DID, and its verification-method list has exactly
one entry when a public key JWK was supplied. -/
theorem create_then_resolve_roundtrip (env : RegistryEnv) (dbm : DbModel)
    (timestamp createdAt : Nat) (nonce : String) (options : CreateOptions)
    (res : CreateDIDResult × Option DbModel) (car : CreateActionResult)
    (htopic : ':' ∉ env.topic.data)
    (hfresh : ∀ r ∈ dbm.state,
      r.serialNumber ≠ serialNumberFor env options.didDocument timestamp nonce)
    (hins : dbm.insertFails = false)
    (h : createDID env (some dbm) timestamp nonce createdAt options = Except.ok res) :
    resolveDID env res.2 res.1.did car = Except.ok (some res.1.didDocument) ∧
    res.1.didDocument.id = res.1.did ∧
    (∀ jwk, options.publicKeyJWK = some jwk →
      res.1.didDocument.verificationMethod.length = 1) := by
  obtain ⟨car0, hca, hres⟩ :=
    createDID_ok_elim env (some dbm) timestamp createdAt nonce options res h
  subst hres
  obtain ⟨hid, hka, hcd, hci, hnone, hsome⟩ :=
    finalDocFor_spec env options timestamp nonce
  refine ⟨?_, hid, fun jwk hjwk => (hsome jwk hjwk).1⟩
  have hdb : dbAfterCreate (some dbm)
      (lookupRecordFor env options timestamp nonce createdAt car0.txid) =
      some { dbm with state := dbm.state ++
        [lookupRecordFor env options timestamp nonce createdAt car0.txid] } := by
    unfold dbAfterCreate
    simp [hins]
  have h1 : dbm.state.find?
      (fun r => r.serialNumber == serialNumberFor env options.didDocument timestamp nonce)
      = none :=
    List.find?_eq_none.mpr (fun r hr => by
      simp only [beq_iff_eq]
      exact hfresh r hr)
  have h2 : List.find?
      (fun r => r.serialNumber == serialNumberFor env options.didDocument timestamp nonce)
      [lookupRecordFor env options timestamp nonce createdAt car0.txid]
      = some (lookupRecordFor env options timestamp nonce createdAt car0.txid) :=
    List.find?_cons_of_pos _ (by simp [lookupRecordFor])
  have hfind : ({ dbm with state := dbm.state ++
      [lookupRecordFor env options timestamp nonce createdAt car0.txid] } : DbModel).state.find?
      (fun r => r.serialNumber == serialNumberFor env options.didDocument timestamp nonce)
      = some (lookupRecordFor env options timestamp nonce createdAt car0.txid) := by
    show (dbm.state ++ [lookupRecordFor env options timestamp nonce createdAt car0.txid]).find? _ = _
    rw [List.find?_append, h1, h2]
    rfl
  have hinner := resolveDIDInner_entry env
    { dbm with state := dbm.state ++
      [lookupRecordFor env options timestamp nonce createdAt car0.txid] }
    env.topic (serialNumberFor env options.didDocument timestamp nonce)
    (lookupRecordFor env options timestamp nonce createdAt car0.txid)
    htopic (toHex_no_colon _) hfind
  show resolveDID env _ (didFor env options.didDocument timestamp nonce) car = _
  unfold didFor
  rw [hdb]
  exact resolveDID_of_inner_ok env _ _ car _ hinner

/-- C3 witness: the concrete environment with an empty index. -/
theorem create_then_resolve_roundtrip_witness :
    resolveDID envExample createResExample.2 createResExample.1.did ⟨"beeffeed"⟩ =
      Except.ok (some createResExample.1.didDocument) :=
  (create_then_resolve_roundtrip envExample dbEmpty 0 0 "n" optionsExample
    createResExample ⟨"beeffeed"⟩ (by decide) (by simp [dbEmpty]) (by rfl)
    (by rfl)).1

/-- C9 counterexample: with an index entry holding only an outpoint, a
success network status, and a payload whose first field is a string that
cannot be decoded into a document, resolveDID returns ok-null (not found)
and does not fail with any error, contradicting the claim that a malformed
payload yields a provider error. -/
theorem malformed_payload_returns_null_counterexample :
    resolveDID envMalformedPayload (some dbOutpointOnly) "did:bsv:t:abc" ⟨"ff00"⟩ =
      Except.ok none ∧
    ∀ e, resolveDID envMalformedPayload (some dbOutpointOnly) "did:bsv:t:abc" ⟨"ff00"⟩ ≠
      Except.error e := by
  have h : resolveDID envMalformedPayload (some dbOutpointOnly) "did:bsv:t:abc" ⟨"ff00"⟩ =
      Except.ok none := by rfl
  exact ⟨h, fun e he => by rw [h] at he; cases he⟩

/-- C9 (amended): when resolution reaches the overlay query, a non-success
network status fails with the provider error (wrapped by the resolver's
catch), and a response body that fails JSON decoding propagates its error;
but a first field that is a string failing document decoding is swallowed
and resolveDID returns ok-null. -/
theorem overlay_error_behavior (env : RegistryEnv) (dbm : DbModel)
    (t serial : String) (rec : LookupRecord) (car : CreateActionResult)
    (resp : FetchResponse)
    (ht : ':' ∉ t.data) (hs : ':' ∉ serial.data)
    (hfind : dbm.state.find? (fun r => r.serialNumber == serial) = some rec)
    (hdoc : rec.didDocument = none) (htxid : ¬ rec.txid = "")
    (hop : ¬ env.overlayProvider = "")
    (hresp : env.fetch
      { url := env.overlayProvider ++ "/lookup"
        service := "ls_did"
        serialNumber := serial
        outpoint := rec.txid ++ "." ++ toString rec.vout } = resp) :
    (resp.ok = false →
      resolveDID env (some dbm) ("did:bsv:" ++ t ++ ":" ++ serial) car =
        Except.error ("Failed to resolve DID: " ++
          ("Overlay provider error: " ++ toString resp.status))) ∧
    (∀ e, resp.ok = true → resp.json = Except.error e →
      resolveDID env (some dbm) ("did:bsv:" ++ t ++ ":" ++ serial) car =
        Except.error ("Failed to resolve DID: " ++ e)) ∧
    (∀ data o os s fs, resp.ok = true → resp.json = Except.ok data →
      data.type = "output-list" → data.outputs = o :: os →
      o.fields = FieldValue.str s :: fs → env.parseDocJson s = none →
      resolveDID env (some dbm) ("did:bsv:" ++ t ++ ":" ++ serial) car =
        Except.ok none) := by
  have hinner : resolveDIDInner env (some dbm) ("did:bsv:" ++ t ++ ":" ++ serial) =
      overlayQuery env serial rec := by
    rw [resolveDIDInner_entry env dbm t serial rec ht hs hfind, hdoc]
    rw [if_neg htxid]
  have hoq : ∀ v, overlayQuery env serial rec = v →
      resolveDIDInner env (some dbm) ("did:bsv:" ++ t ++ ":" ++ serial) = v := by
    intro v hv
    rw [hinner, hv]
  refine ⟨?_, ?_, ?_⟩
  · intro hok
    apply resolveDID_of_inner_error
    apply hoq
    unfold overlayQuery
    rw [if_neg hop]
    simp [hresp, hok]
  · intro e hok hjson
    apply resolveDID_of_inner_error
    apply hoq
    unfold overlayQuery
    rw [if_neg hop]
    simp [hresp, hok, hjson]
  · intro data o os s fs hok hjson htype houts hfields hparse
    apply resolveDID_of_inner_ok
    apply hoq
    unfold overlayQuery
    rw [if_neg hop]
    simp [hresp, hok, hjson, htype, houts, hfields, hparse]

/-- C9 witness: a concrete overlay returning HTTP status 500. -/
theorem overlay_error_behavior_witness :
    resolveDID envStatus500 (some dbOutpointOnly) ("did:bsv:" ++ "t" ++ ":" ++ "abc") ⟨"x"⟩ =
      Except.error ("Failed to resolve DID: " ++
        ("Overlay provider error: " ++ toString (500 : Nat))) :=
  (overlay_error_behavior envStatus500 dbOutpointOnly "t" "abc"
    ⟨"abc", "ff00", 0, "t", none, 0⟩ ⟨"x"⟩
    ⟨false, 500, Except.error "nope"⟩
    (by decide) (by decide) (by rfl) (by rfl) (by decide) (by decide)
    (by rfl)).1 (by rfl)

end Registry

end Register
